import Mathlib

/-!
Shallow embedding of the alienprobe-hunter-brod backend
(`server/api_routes.py`, `server/storage_flask.py`, `server/flask_app.py`).

Conventions of the embedding:
* JSON request bodies for `POST /api/scan` are modelled as objects whose
  `businessName` / `website` members, when present, are strings
  (`ScanRequest`); `hasOtherKeys` records whether the object carries any
  further members, so that Python's emptiness test `not data` is
  `ScanRequest.isEmptyObj`.
* The `scanData` JSON document is modelled structurally (`ScanDoc`) with one
  optional field per key that the source ever writes; `json.dumps` /
  `json.loads` round-tripping is modelled as the identity, and Python's
  `dict.update` as overwriting exactly the listed fields.
* Timestamps (`datetime.utcnow()`) are opaque parameters: `Nat` for the
  database columns, `String` for the ISO strings stored inside `scanData`.
* The SQLAlchemy model class `ScanResult` lives in `server/models.py`, which
  is not part of the sources; its record shape is modelled from the spec's
  data-model section (see `ScanRecord`).
* File serving: `send_from_directory` signals a missing file by raising
  werkzeug's `NotFound` HTTP exception, modelled with `Except PyExc`; the
  source's `except FileNotFoundError` clauses match only
  `FileNotFoundError`, so that signal propagates to the registered 404
  handler, and an exception escaping that handler becomes the framework's
  500 response (`handle_static_request`).
-/

/-- Python truthiness of `data.get(key)` for a string-or-absent JSON member:
`None` and the empty string are falsy. -/
def pyTruthy : Option String → Bool
  | none => false
  | some s => !(s == "")

/-- Python's default whitespace set for `str.strip()` (ASCII part). -/
def pyIsSpace (c : Char) : Bool :=
  c == ' ' || c == '\t' || c == '\n' || c == '\x0d' || c == '\x0b' || c == '\x0c'

/-- Python `str.strip()`: remove leading and trailing whitespace. -/
def pyStrip (s : String) : String :=
  ⟨((s.data.dropWhile pyIsSpace).reverse.dropWhile pyIsSpace).reverse⟩

/-- Characters allowed in a URL scheme after the first letter
(`urllib.parse.scheme_chars`). -/
def isSchemeChar (c : Char) : Bool :=
  c.isAlpha || c.isDigit || c == '+' || c == '-' || c == '.'

/-- Preprocessing done by `urllib.parse.urlsplit`: strip leading C0
controls/space, then drop every tab, CR and LF. -/
def urlClean (s : String) : List Char :=
  (s.data.dropWhile (fun c => c.toNat ≤ 32)).filter
    (fun c => !(c == '\t' || c == '\r' || c == '\n'))

/-- Scheme extraction of `urllib.parse.urlsplit`: if the URL has a `:` at a
positive index, starts with an ASCII letter and everything before the `:` is a
scheme character, split off the lowercased scheme. Returns (scheme, rest). -/
def splitScheme (l : List Char) : List Char × List Char :=
  match List.findIdx? (fun c => c == ':') l with
  | none => ([], l)
  | some i =>
    if 0 < i ∧ (l.headD 'x').isAlpha ∧ (l.take i).all isSchemeChar then
      ((l.take i).map Char.toLower, l.drop (i + 1))
    else
      ([], l)

/-- Netloc extraction of `urllib.parse.urlsplit`: when the remainder starts
with `//`, the netloc runs up to the next `/`, `?` or `#`; a `[` without `]`
(or vice versa) raises `ValueError`, modelled as `none`.  (The extra
bracketed-host validation of newer CPython versions is not modelled; the
claims never evaluate bracketed hosts.) -/
def splitNetloc (l : List Char) : Option (List Char) :=
  match l with
  | '/' :: '/' :: rest =>
    let netloc := rest.takeWhile (fun c => !(c == '/' || c == '?' || c == '#'))
    if (netloc.contains '[' && !(netloc.contains ']'))
        || (netloc.contains ']' && !(netloc.contains '[')) then
      none
    else
      some netloc
  | _ => some []

/-- Embedding of `validate_url` from `server/api_routes.py`: `urlparse(url)`
succeeds with truthy `scheme` and truthy `netloc`; any parse error yields
`False` via the bare `except`. -/
def validate_url (url : String) : Bool :=
  let cleaned := urlClean url
  let (scheme, rest) := splitScheme cleaned
  match splitNetloc rest with
  | none => false
  | some netloc => !scheme.isEmpty && !netloc.isEmpty

/-- Body of a `POST /api/scan` request, as a JSON object whose relevant
members are strings when present. -/
structure ScanRequest where
  businessName : Option String := none
  website : Option String := none
  hasOtherKeys : Bool := false
deriving DecidableEq

/-- Python's `not data` for a parsed JSON object: the object has no members. -/
def ScanRequest.isEmptyObj (d : ScanRequest) : Bool :=
  d.businessName.isNone && d.website.isNone && !d.hasOtherKeys

/-- Embedding of `validate_scan_request` from `server/api_routes.py`. -/
def validate_scan_request (data : ScanRequest) : List String :=
  let errors : List String := []
  let errors := if pyTruthy data.businessName then errors
    else errors ++ ["Business name is required"]
  let errors := if (data.businessName.getD "").length < 1 then
    errors ++ ["Business name must be at least 1 character long"] else errors
  let website := pyStrip (data.website.getD "")
  let errors := if website ≠ "" ∧ validate_url website = false then
    errors ++ ["Please enter a valid URL"] else errors
  errors

/-- Structural model of the `scanData` JSON document: one optional field per
key the source ever writes into it. -/
structure ScanDoc where
  timestamp : Option String := none
  websiteAnalysis : Option String := none
  businessScore : Option Nat := none
  scanning : Option Bool := none
  completed : Option Bool := none
  insights : Option (List String) := none
  completedAt : Option String := none
deriving DecidableEq

/-- Modelled from the spec: the `ScanResult` row of `server/models.py` (file
not among the sources), following the spec's data model — generated `id`,
required `businessName`, optional `website`, `status`, opaque `scanData`
document, `createdAt` / `updatedAt` timestamps. -/
structure ScanRecord where
  id : Nat
  businessName : String
  website : Option String
  status : String
  scanData : Option ScanDoc
  createdAt : Nat
  updatedAt : Nat
deriving DecidableEq

/-- The scan-result table: rows in insertion order plus the next generated
primary key. -/
structure Store where
  records : List ScanRecord := []
  nextId : Nat := 0
deriving DecidableEq

/-- Well-formedness of a store: every primary key already used is below the
next generated one (this is how the underlying database behaves). -/
def Store.WF (s : Store) : Prop :=
  ∀ r ∈ s.records, r.id < s.nextId

/-- Argument dictionary of `FlaskStorage.create_scan_result`. -/
structure CreateFields where
  businessName : String
  website : Option String := none
  scanData : Option ScanDoc := none
  status : Option String := none

/-- Partial-update dictionary of `FlaskStorage.update_scan_result`: a key is
in the dictionary iff the outer `Option` is `some`. -/
structure UpdateFields where
  businessName : Option String := none
  website : Option (Option String) := none
  scanData : Option (Option ScanDoc) := none
  status : Option String := none
deriving DecidableEq

/-- Embedding of `FlaskStorage.create_scan_result`: insert a row with a fresh
id, `status` defaulting to `pending`, both timestamps set to now; return the
detached copy of the persisted row. -/
def create_scan_result (s : Store) (d : CreateFields) (now : Nat) :
    ScanRecord × Store :=
  let r : ScanRecord :=
    { id := s.nextId, businessName := d.businessName, website := d.website,
      status := d.status.getD "pending", scanData := d.scanData,
      createdAt := now, updatedAt := now }
  (r, { records := s.records ++ [r], nextId := s.nextId + 1 })

/-- Embedding of `FlaskStorage.get_scan_result`: first row with the given id,
if any. -/
def get_scan_result (s : Store) (i : Nat) : Option ScanRecord :=
  s.records.find? (fun r => r.id == i)

/-- Embedding of `FlaskStorage.get_all_scan_results`:
`ScanResult.query.order_by(ScanResult.created_at.desc()).all()` — all rows,
stably sorted by creation time, newest first. -/
def get_all_scan_results (s : Store) : List ScanRecord :=
  List.insertionSort (fun a b => b.createdAt ≤ a.createdAt) s.records

/-- Embedding of `FlaskStorage.update_scan_result`: look the row up by id;
absent rows give `None`; otherwise overwrite exactly the fields present in the
update dictionary, refresh `updated_at`, and return the updated row. -/
def update_scan_result (s : Store) (i : Nat) (u : UpdateFields) (now : Nat) :
    Option ScanRecord × Store :=
  match s.records.find? (fun r => r.id == i) with
  | none => (none, s)
  | some r =>
    let r' : ScanRecord :=
      { r with
        businessName := u.businessName.getD r.businessName,
        website := u.website.getD r.website,
        scanData := u.scanData.getD r.scanData,
        status := u.status.getD r.status,
        updatedAt := now }
    (some r', { s with records := s.records.map (fun x => if x.id == i then r' else x) })

/-- JSON body (plus HTTP status) of an API response; each field is present
exactly when the corresponding key is in the jsonify'd dictionary. -/
structure ApiResponse where
  status : Nat
  success : Option Bool := none
  error : Option String := none
  details : Option (List String) := none
  scanId : Option Nat := none
  message : Option String := none
  result : Option ScanRecord := none
  results : Option (List ScanRecord) := none
deriving DecidableEq

/-- The closure state captured by `complete_scan` inside `create_scan`: the
id and the `scanData` snapshot of the row as returned at creation time. -/
structure Pending where
  id : Nat
  scanData : Option ScanDoc
deriving DecidableEq

/-- The three canned insight strings of the completion step. -/
def cannedInsights : List String :=
  ["Strong online presence detected",
   "Potential for digital expansion",
   "Competitive market position"]

/-- Delay, in seconds, of the simulated completion (`time.sleep(2)`). -/
def completionDelaySeconds : Nat := 2

/-- Embedding of the `POST /api/scan` handler `create_scan` from
`server/api_routes.py`.  `body` is the parsed JSON (`none` when no JSON was
supplied), `now` the row timestamp, `ts` the ISO creation timestamp written
into `scanData`.  Returns the response, the new store, and the deferred
completion closure (scheduled, not yet run — the handler answers without
waiting for it). -/
def create_scan (body : Option ScanRequest) (now : Nat) (ts : String)
    (s : Store) : ApiResponse × Store × Option Pending :=
  match body with
  | none =>
    ({ status := 400, success := some false, error := some "No data provided" },
     s, none)
  | some data =>
    if data.isEmptyObj then
      ({ status := 400, success := some false, error := some "No data provided" },
       s, none)
    else
      let errs := validate_scan_request data
      if errs = [] then
        let doc : ScanDoc :=
          { timestamp := some ts,
            websiteAnalysis := some (if pyTruthy data.website then
              "Website found and analyzed" else "No website provided"),
            businessScore := some 85,
            scanning := some true }
        let fields : CreateFields :=
          { businessName := pyStrip (data.businessName.getD ""),
            website :=
              (if pyStrip (data.website.getD "") = "" then none
               else some (pyStrip (data.website.getD ""))),
            scanData := some doc,
            status := some "scanning" }
        let res := create_scan_result s fields now
        ({ status := 200, success := some true, scanId := some res.1.id,
           message := some "Scan initiated successfully" },
         res.2, some { id := res.1.id, scanData := res.1.scanData })
      else
        ({ status := 400, success := some false, error := some "Validation failed",
           details := some errs }, s, none)

/-- Embedding of the deferred `complete_scan` closure: load the creation-time
`scanData` snapshot (empty document when null), overwrite the completion
fields, and persist the merged document together with `status = completed`. -/
def complete_scan (p : Pending) (tc : String) (now : Nat) (s : Store) : Store :=
  let d0 := p.scanData.getD {}
  let d1 : ScanDoc :=
    { d0 with
      completed := some true, scanning := some false,
      insights := some cannedInsights, completedAt := some tc }
  (update_scan_result s p.id
    { scanData := some (some d1), status := some "completed" } now).2

/-- Embedding of the `GET /api/results` handler. -/
def api_get_all_results (s : Store) : ApiResponse :=
  { status := 200, results := some (get_all_scan_results s) }

/-- Embedding of the `GET /api/results/<scan_id>` handler. -/
def api_get_scan_result (s : Store) (i : Nat) : ApiResponse :=
  match get_scan_result s i with
  | none =>
    { status := 404, success := some false, error := some "Scan result not found" }
  | some r => { status := 200, result := some r }

/-- Responses the static-serving side of `server/flask_app.py` can produce:
a served file (200); the API-scoped JSON 404; the descriptive
"React build not found" 404 of the `except FileNotFoundError` branches; and
the 500 "Internal server error" produced by the framework when an exception
escapes an error handler. -/
inductive StaticResponse where
  | file (content : String)
  | apiNotFound
  | buildMissing
  | internalError
deriving DecidableEq

/-- The frontend bundle, as relative paths with their contents. -/
def Bundle := List (String × String)

/-- Exceptions relevant to the static-serving handlers: the werkzeug
`NotFound` HTTP exception, and Python's built-in `FileNotFoundError`. They
are distinct types, and `except FileNotFoundError` catches only the
latter. -/
inductive PyExc where
  | notFound
  | fileNotFoundError
deriving DecidableEq

deriving instance DecidableEq for Except

/-- Embedding of `send_from_directory(app.static_folder, p)`: the file's
content when it exists; when the file is missing, werkzeug raises the
`NotFound` HTTP exception (never `FileNotFoundError`). -/
def send_from_directory (files : Bundle) (p : String) : Except PyExc String :=
  match List.lookup p files with
  | some c => .ok c
  | none => .error .notFound

/-- Embedding of the root route `serve_react_app`: try to serve
`index.html`; the `except FileNotFoundError` branch would answer the
descriptive build-missing 404, but the missing-file signal is `NotFound`,
which this handler does not catch, so it propagates. -/
def serve_react_app (files : Bundle) : Except PyExc StaticResponse :=
  match send_from_directory files "index.html" with
  | .ok c => .ok (.file c)
  | .error .fileNotFoundError => .ok .buildMissing
  | .error e => .error e

/-- Python's `path.startswith('api/')` of the catch-all route. -/
def isApiPath (path : String) : Bool :=
  "api/".data.isPrefixOf path.data

/-- Embedding of the catch-all route `serve_static`: API paths get the
API-scoped JSON 404 and are never served as files; otherwise try the file at
the path. Both `except FileNotFoundError` clauses (fall back to `index.html`,
then the descriptive build-missing 404) only catch `FileNotFoundError`, so
the `NotFound` raised for a missing file propagates past them. -/
def serve_static (files : Bundle) (path : String) : Except PyExc StaticResponse :=
  if isApiPath path then .ok .apiNotFound
  else
    match send_from_directory files path with
    | .ok c => .ok (.file c)
    | .error .fileNotFoundError =>
      (match send_from_directory files "index.html" with
       | .ok c => .ok (.file c)
       | .error .fileNotFoundError => .ok .buildMissing
       | .error e => .error e)
    | .error e => .error e

/-- Python's `request.path.startswith('/api/')` of the 404 error handler
(`request.path` carries a leading slash). -/
def isApiRequestPath (p : String) : Bool :=
  "/api/".data.isPrefixOf p.data

/-- Embedding of the `errorhandler(404)` function `not_found`: API request
paths get the API-scoped JSON 404; other paths are answered with
`index.html`; its inner `except FileNotFoundError` likewise never matches
the `NotFound` that a missing `index.html` raises, which therefore escapes
the error handler. -/
def not_found (files : Bundle) (requestPath : String) :
    Except PyExc StaticResponse :=
  if isApiRequestPath requestPath then .ok .apiNotFound
  else
    match send_from_directory files "index.html" with
    | .ok c => .ok (.file c)
    | .error .fileNotFoundError => .ok .buildMissing
    | .error e => .error e

/-- Dispatch of a GET for a non-route-matched path through the Flask app,
following the framework's documented error flow: run the matched view
(`serve_react_app` for the root, `serve_static` otherwise); an uncaught
`NotFound` invokes the registered 404 handler `not_found` on the request
path; an exception escaping that handler is converted by the framework into
the 500 Internal-server-error response (via the registered 500 handler). -/
def handle_static_request (files : Bundle) (path : String) : StaticResponse :=
  let outcome := if path = "" then serve_react_app files
    else serve_static files path
  match outcome with
  | .ok r => r
  | .error _ =>
    match not_found files ("/" ++ path) with
    | .ok r => r
    | .error _ => .internalError

/-- The initial `scanData` document built by `create_scan` for a valid
request: creation timestamp, canned analysis note (chosen from the raw,
unstripped `website` member), fixed placeholder score 85, in-progress flag. -/
def initialDoc (data : ScanRequest) (ts : String) : ScanDoc :=
  { timestamp := some ts,
    websiteAnalysis := some (if pyTruthy data.website then
      "Website found and analyzed" else "No website provided"),
    businessScore := some 85,
    scanning := some true }

/-- The row persisted by `create_scan` for a valid request. -/
def initialRecord (data : ScanRequest) (now : Nat) (ts : String) (i : Nat) :
    ScanRecord :=
  { id := i,
    businessName := pyStrip (data.businessName.getD ""),
    website := if pyStrip (data.website.getD "") = "" then none
      else some (pyStrip (data.website.getD "")),
    status := "scanning",
    scanData := some (initialDoc data ts),
    createdAt := now, updatedAt := now }

/-- The completion step's merge into a creation-time document: completion
flag, scanning off, the three canned insights, completion timestamp; all
other fields kept. -/
def completedDoc (d0 : ScanDoc) (tc : String) : ScanDoc :=
  { d0 with
    completed := some true, scanning := some false,
    insights := some cannedInsights, completedAt := some tc }

/-- The spec's example request body,
`{"businessName": "Acme Co", "website": "https://acme.example"}`. -/
def acmeRequest : ScanRequest :=
  { businessName := some "Acme Co", website := some "https://acme.example" }

/-! ## Helper lemmas -/

/-- A string has length zero exactly when it is empty. -/
lemma string_length_eq_zero_iff (s : String) : s.length = 0 ↔ s = "" := by
  constructor
  · intro h
    apply String.ext
    have h2 : s.data.length = 0 := by rw [String.length_data]; exact h
    simpa using List.length_eq_zero.mp h2
  · rintro rfl; rfl

/-- The two `businessName` checks of `validate_scan_request` agree: the value
is falsy exactly when `len(data.get('businessName', '')) < 1`. -/
lemma pyTruthy_eq_false_iff (b : Option String) :
    pyTruthy b = false ↔ (b.getD "").length < 1 := by
  cases b with
  | none => simp [pyTruthy]
  | some s =>
    simp only [pyTruthy, Option.getD_some, Nat.lt_one_iff,
      string_length_eq_zero_iff, Bool.not_eq_false']
    constructor
    · intro h; exact eq_of_beq h
    · rintro rfl; rfl

/-- Normal form of `validate_scan_request`: the business-name messages
(both fire together) followed by the URL message. -/
lemma validate_scan_request_eq (d : ScanRequest) :
    validate_scan_request d =
      (if pyTruthy d.businessName then []
       else ["Business name is required",
             "Business name must be at least 1 character long"])
      ++ (if pyStrip (d.website.getD "") ≠ "" ∧
            validate_url (pyStrip (d.website.getD "")) = false
          then ["Please enter a valid URL"] else []) := by
  unfold validate_scan_request
  by_cases hb : pyTruthy d.businessName = true
  · have hlen : ¬ ((d.businessName.getD "").length < 1) := by
      intro hcon
      rw [← pyTruthy_eq_false_iff] at hcon
      rw [hb] at hcon
      cases hcon
    simp [hb, hlen]
  · have hb' : pyTruthy d.businessName = false := by
      cases h : pyTruthy d.businessName with
      | false => rfl
      | true => exact absurd h hb
    have hlen : (d.businessName.getD "").length < 1 :=
      (pyTruthy_eq_false_iff d.businessName).mp hb'
    simp only [hb', Bool.false_eq_true, if_false, hlen, if_true]
    split <;> rfl

/-- The validator accepts exactly when the business name is truthy and the
trimmed website, when nonempty, passes `validate_url`. -/
lemma validate_scan_request_nil_iff (d : ScanRequest) :
    validate_scan_request d = [] ↔
      (pyTruthy d.businessName = true ∧
       ¬ (pyStrip (d.website.getD "") ≠ "" ∧
          validate_url (pyStrip (d.website.getD "")) = false)) := by
  rw [validate_scan_request_eq]
  by_cases hb : pyTruthy d.businessName = true
  · by_cases hw : pyStrip (d.website.getD "") ≠ "" ∧
        validate_url (pyStrip (d.website.getD "")) = false
    · simp [hb, hw]
    · simp [hb, hw]
  · by_cases hw : pyStrip (d.website.getD "") ≠ "" ∧
        validate_url (pyStrip (d.website.getD "")) = false
    · simp [hb, hw]
    · simp [hb, hw]

/-- A falsy business name always contributes its dedicated message. -/
lemma required_message_mem (d : ScanRequest)
    (h : pyTruthy d.businessName = false) :
    "Business name is required" ∈ validate_scan_request d := by
  rw [validate_scan_request_eq, h]
  simp

/-- Rows whose predicate fails throughout the left list do not affect
`find?` over an append. -/
lemma find?_append_of_none {p : ScanRecord → Bool} {l₁ l₂ : List ScanRecord}
    (h : ∀ x ∈ l₁, p x = false) :
    List.find? p (l₁ ++ l₂) = List.find? p l₂ := by
  rw [List.find?_append]
  have : List.find? p l₁ = none := List.find?_eq_none.mpr (by
    intro x hx
    rw [h x hx]
    exact Bool.false_ne_true)
  rw [this, Option.none_or]

/-- Replacing the row with a fresh id leaves rows with older ids unchanged. -/
lemma map_replace_eq_self {l : List ScanRecord} {i : Nat} {r' : ScanRecord}
    (h : ∀ x ∈ l, x.id ≠ i) :
    l.map (fun x => if x.id == i then r' else x) = l := by
  have : ∀ x ∈ l, (fun x => if x.id == i then r' else x) x = id x := by
    intro x hx
    simp only [id]
    rw [if_neg]
    intro hbeq
    exact h x hx (by simpa using hbeq)
  rw [List.map_congr_left this, List.map_id]

/-- Computation of the whole success branch of `create_scan`. -/
lemma create_scan_success_eq (data : ScanRequest) (now : Nat) (ts : String)
    (s : Store) (hne : data.isEmptyObj = false)
    (hv : validate_scan_request data = []) :
    create_scan (some data) now ts s =
      ({ status := 200, success := some true, scanId := some s.nextId,
         message := some "Scan initiated successfully" },
       { records := s.records ++ [initialRecord data now ts s.nextId],
         nextId := s.nextId + 1 },
       some { id := s.nextId, scanData := some (initialDoc data ts) }) := by
  unfold create_scan create_scan_result
  simp only [hne, Bool.false_eq_true, if_false, hv, if_true]
  rfl

/-- In a well-formed store, no existing row matches the fresh id. -/
lemma no_row_matches_nextId {s : Store} (hwf : s.WF) :
    ∀ x ∈ s.records, (x.id == s.nextId) = false := by
  intro x hx
  rw [beq_eq_false_iff_ne]
  exact Nat.ne_of_lt (hwf x hx)

/-- Updating the freshly created row rewrites only that row: the store
becomes the old rows followed by the updated fresh row. -/
lemma update_after_create {s : Store} (hwf : s.WF) (rec0 : ScanRecord)
    (hid : rec0.id = s.nextId) (u : UpdateFields) (t : Nat) :
    update_scan_result
        { records := s.records ++ [rec0], nextId := s.nextId + 1 }
        s.nextId u t =
      (some { rec0 with
        businessName := u.businessName.getD rec0.businessName,
        website := u.website.getD rec0.website,
        scanData := u.scanData.getD rec0.scanData,
        status := u.status.getD rec0.status,
        updatedAt := t },
       { records := s.records ++
           [{ rec0 with
              businessName := u.businessName.getD rec0.businessName,
              website := u.website.getD rec0.website,
              scanData := u.scanData.getD rec0.scanData,
              status := u.status.getD rec0.status,
              updatedAt := t }],
         nextId := s.nextId + 1 }) := by
  unfold update_scan_result
  have hfind : List.find? (fun r => r.id == s.nextId) (s.records ++ [rec0]) =
      some rec0 := by
    rw [find?_append_of_none (no_row_matches_nextId hwf)]
    simp [List.find?, hid]
  rw [hfind]
  simp only [List.map_append]
  rw [map_replace_eq_self (fun x hx => by
    have := no_row_matches_nextId hwf x hx
    rw [beq_eq_false_iff_ne] at this
    exact this)]
  simp [hid]

/-- The fresh row is the one `get_scan_result` finds after the rewrite. -/
lemma get_after_append {s : Store} (hwf : s.WF) (rec : ScanRecord)
    (hid : rec.id = s.nextId) (n : Nat) :
    get_scan_result { records := s.records ++ [rec], nextId := n } s.nextId =
      some rec := by
  unfold get_scan_result
  rw [find?_append_of_none (no_row_matches_nextId hwf)]
  simp [List.find?, hid]

/-! ## Claims -/

/-- C9: a `POST /api/scan` whose body parses to an empty JSON object, or to
no JSON at all, is answered on the early guard branch with a 400 response
whose body is exactly `success = false`, `error = "No data provided"` — no
itemized validation details — and the store is untouched and no completion
step is scheduled. -/
theorem C9_no_data_guard (body : Option ScanRequest) (now : Nat) (ts : String)
    (s : Store)
    (h : body = none ∨ ∃ d, body = some d ∧ d.isEmptyObj = true) :
    create_scan body now ts s =
      ({ status := 400, success := some false, error := some "No data provided" },
       s, none) := by
  rcases h with h | ⟨d, hd, hempty⟩
  · rw [h]; rfl
  · rw [hd]
    unfold create_scan
    simp [hempty]

/-- Witness for C9 at the two concrete guard inputs. -/
theorem C9_no_data_guard_witness :
    create_scan none 0 "t" { } =
      ({ status := 400, success := some false, error := some "No data provided" },
       { }, none)
    ∧ create_scan (some { }) 0 "t" { } =
      ({ status := 400, success := some false, error := some "No data provided" },
       { }, none) :=
  ⟨C9_no_data_guard none 0 "t" { } (Or.inl rfl),
   C9_no_data_guard (some { }) 0 "t" { } (Or.inr ⟨{ }, rfl, by decide⟩)⟩

/-- C1, counterexample: at the empty JSON object, `businessName` is missing,
yet the response is the bare "No data provided" 400 without any list of
validation messages, so the claimed biconditional (and the promised
missing-`businessName` message) fails at this body. -/
theorem C1_counterexample :
    ¬ ((((create_scan (some { }) 0 "t" { }).1.status = 400 ∧
         (create_scan (some { }) 0 "t" { }).1.details.isSome = true) ↔
        (pyTruthy ({ } : ScanRequest).businessName = false ∨
         (pyStrip (({ } : ScanRequest).website.getD "") ≠ "" ∧
          validate_url (pyStrip (({ } : ScanRequest).website.getD "")) = false)))
       ∧ "Business name is required" ∈
         ((create_scan (some { }) 0 "t" { }).1.details.getD [])) := by
  decide

/-- C1, amended: for every request body that parses to a NONEMPTY JSON
object, the request is answered 400 with a list of validation messages iff
`businessName` is missing or empty or the trimmed `website` is nonempty and
fails `validate_url`; and whenever `businessName` is missing or empty the
message list contains "Business name is required". (The empty object instead
hits the earlier "No data provided" guard, see the counterexample.) -/
theorem C1_validation_iff (data : ScanRequest) (now : Nat) (ts : String)
    (s : Store) (hne : data.isEmptyObj = false) :
    (((create_scan (some data) now ts s).1.status = 400 ∧
      (create_scan (some data) now ts s).1.details.isSome = true) ↔
     (pyTruthy data.businessName = false ∨
      (pyStrip (data.website.getD "") ≠ "" ∧
       validate_url (pyStrip (data.website.getD "")) = false)))
    ∧ (pyTruthy data.businessName = false →
       "Business name is required" ∈
         ((create_scan (some data) now ts s).1.details.getD [])) := by
  unfold create_scan
  simp only [hne, Bool.false_eq_true, if_false]
  by_cases hv : validate_scan_request data = []
  · have hok := (validate_scan_request_nil_iff data).mp hv
    simp only [hv, if_true]
    constructor
    · constructor
      · rintro ⟨h400, -⟩
        exact absurd h400 (by simp)
      · rintro (hbad | hbad)
        · rw [hok.1] at hbad; cases hbad
        · exact absurd hbad hok.2
    · intro hbad
      rw [hok.1] at hbad; cases hbad
  · simp only [hv, if_false]
    constructor
    · constructor
      · intro _
        by_cases hb : pyTruthy data.businessName = false
        · exact Or.inl hb
        · right
          by_contra hw
          apply hv
          apply (validate_scan_request_nil_iff data).mpr
          refine ⟨?_, hw⟩
          cases h : pyTruthy data.businessName with
          | false => exact absurd h hb
          | true => rfl
      · intro _
        exact ⟨by trivial, by trivial⟩
    · intro hb
      simpa using required_message_mem data hb

/-- Witness for C1 at a concrete nonempty body with empty `businessName`. -/
theorem C1_validation_iff_witness :
    "Business name is required" ∈
      ((create_scan (some { businessName := some "" }) 0 "t"
        ({ } : Store)).1.details.getD []) :=
  (C1_validation_iff { businessName := some "" } 0 "t" { } (by decide)).2
    (by decide)

/-- C7: fetching an unknown scan id answers with the 404 "Scan result not
found" body — a response whose status is 404, never 500. -/
theorem C7_unknown_id_404 (s : Store) (i : Nat)
    (h : ∀ r ∈ s.records, r.id ≠ i) :
    api_get_scan_result s i =
      { status := 404, success := some false, error := some "Scan result not found" }
    ∧ (api_get_scan_result s i).status ≠ 500 := by
  have hfind : get_scan_result s i = none := by
    unfold get_scan_result
    apply List.find?_eq_none.mpr
    intro r hr hbeq
    exact h r hr (by simpa using hbeq)
  constructor
  · unfold api_get_scan_result
    rw [hfind]
  · unfold api_get_scan_result
    rw [hfind]
    decide

/-- Witness for C7 on a store that does hold a record, at a different id. -/
theorem C7_unknown_id_404_witness :
    api_get_scan_result
      { records := [{ id := 0, businessName := "b", website := none,
                      status := "pending", scanData := none,
                      createdAt := 0, updatedAt := 0 }], nextId := 1 } 7 =
      { status := 404, success := some false, error := some "Scan result not found" } :=
  (C7_unknown_id_404
    { records := [{ id := 0, businessName := "b", website := none,
                    status := "pending", scanData := none,
                    createdAt := 0, updatedAt := 0 }], nextId := 1 } 7
    (by decide)).1

/-- C6: the bug at the missing-entry-document case. The claim (with the
spec) promises the descriptive build-missing 404 for the root and the
fallback when `index.html` is absent; the source's `except
FileNotFoundError` branches were clearly written for that, but
`send_from_directory` raises werkzeug's `NotFound`, so they are dead: the
`NotFound` reaches the 404 error handler, whose own `index.html` attempt
raises again, and the framework answers 500 Internal server error. This
theorem evaluates the program at the failing input (a bundle without
`index.html`): root and fallback answer the 500, never the descriptive 404,
while the parts of the claim about API scoping, existing files and the
fallback-to-index remain as promised. -/
theorem C6_entry_missing_500 :
    handle_static_request [] "" = .internalError
    ∧ handle_static_request [] "app/route" = .internalError
    ∧ handle_static_request [] "" ≠ .buildMissing
    ∧ handle_static_request [] "app/route" ≠ .buildMissing
    ∧ serve_react_app [] = .error PyExc.notFound
    ∧ serve_static [] "app/route" = .error PyExc.notFound
    ∧ handle_static_request [("index.html", "<html>")] "app/route" =
        .file "<html>"
    ∧ handle_static_request [("app.js", "js"), ("index.html", "<html>")]
        "app.js" = .file "js"
    ∧ handle_static_request [("api/x", "secret")] "api/x" = .apiNotFound := by
  decide

/-- C2: a valid scan request appends exactly one new row, with
`status = "scanning"` and an initial `scanData` document holding the creation
timestamp, the canned analysis note (one message when a website member was
supplied and truthy, the other otherwise), the fixed placeholder score 85 and
the in-progress flag; the response acknowledges success with the new row's
id, returned while the completion step is still only scheduled. -/
theorem C2_create_scan_success (data : ScanRequest) (now : Nat) (ts : String)
    (s : Store) (hne : data.isEmptyObj = false)
    (hv : validate_scan_request data = []) :
    ∃ rec : ScanRecord,
      (create_scan (some data) now ts s).2.1.records = s.records ++ [rec]
      ∧ rec.status = "scanning"
      ∧ rec.scanData = some (initialDoc data ts)
      ∧ (initialDoc data ts).timestamp = some ts
      ∧ (initialDoc data ts).businessScore = some 85
      ∧ (initialDoc data ts).scanning = some true
      ∧ (initialDoc data ts).websiteAnalysis =
          some (if pyTruthy data.website then "Website found and analyzed"
                else "No website provided")
      ∧ (create_scan (some data) now ts s).1 =
          { status := 200, success := some true, scanId := some rec.id,
            message := some "Scan initiated successfully" }
      ∧ (create_scan (some data) now ts s).2.2 =
          some { id := rec.id, scanData := rec.scanData } := by
  rw [create_scan_success_eq data now ts s hne hv]
  exact ⟨initialRecord data now ts s.nextId,
    rfl, rfl, rfl, rfl, rfl, rfl, rfl, rfl, rfl⟩

/-- Witness for C2 at the spec's example request. -/
theorem C2_create_scan_success_witness :
    ∃ rec : ScanRecord,
      (create_scan (some acmeRequest) 3 "T0" ({ } : Store)).2.1.records =
        ({ } : Store).records ++ [rec]
      ∧ rec.status = "scanning"
      ∧ rec.scanData = some (initialDoc acmeRequest "T0")
      ∧ (initialDoc acmeRequest "T0").timestamp = some "T0"
      ∧ (initialDoc acmeRequest "T0").businessScore = some 85
      ∧ (initialDoc acmeRequest "T0").scanning = some true
      ∧ (initialDoc acmeRequest "T0").websiteAnalysis =
          some (if pyTruthy acmeRequest.website then "Website found and analyzed"
                else "No website provided")
      ∧ (create_scan (some acmeRequest) 3 "T0" ({ } : Store)).1 =
          { status := 200, success := some true, scanId := some rec.id,
            message := some "Scan initiated successfully" }
      ∧ (create_scan (some acmeRequest) 3 "T0" ({ } : Store)).2.2 =
          some { id := rec.id, scanData := rec.scanData } :=
  C2_create_scan_success acmeRequest 3 "T0" { } (by decide) (by decide)

/-- C3: the deferred completion step (scheduled with the fixed 2-second
sleep) turns the created row's `status` into `"completed"` and replaces its
`scanData` with the creation-time document merged with the completion flag,
the exactly-three canned insight strings and the completion timestamp, as a
fetch of the row after the step observes. -/
theorem C3_completion (data : ScanRequest) (now : Nat) (ts : String)
    (s : Store) (hne : data.isEmptyObj = false)
    (hv : validate_scan_request data = []) (hwf : s.WF) (tc : String)
    (t2 : Nat) :
    completionDelaySeconds = 2
    ∧ ∃ p : Pending, (create_scan (some data) now ts s).2.2 = some p
      ∧ ∃ rec : ScanRecord,
          get_scan_result
            (complete_scan p tc t2 (create_scan (some data) now ts s).2.1)
            p.id = some rec
          ∧ rec.status = "completed"
          ∧ rec.scanData = some (completedDoc (initialDoc data ts) tc)
          ∧ (completedDoc (initialDoc data ts) tc).completed = some true
          ∧ (completedDoc (initialDoc data ts) tc).insights = some cannedInsights
          ∧ cannedInsights.length = 3
          ∧ (completedDoc (initialDoc data ts) tc).completedAt = some tc
          ∧ (completedDoc (initialDoc data ts) tc).timestamp =
              (initialDoc data ts).timestamp := by
  rw [create_scan_success_eq data now ts s hne hv]
  refine ⟨rfl, { id := s.nextId, scanData := some (initialDoc data ts) },
    rfl, ?_⟩
  dsimp only [complete_scan]
  rw [update_after_create hwf (initialRecord data now ts s.nextId) rfl]
  dsimp only
  rw [get_after_append hwf _ rfl]
  exact ⟨_, rfl, rfl, rfl, rfl, rfl, rfl, rfl, rfl⟩

/-- Witness for C3 at the spec's example request on the empty store. -/
theorem C3_completion_witness :
    completionDelaySeconds = 2
    ∧ ∃ p : Pending,
        (create_scan (some acmeRequest) 3 "T0" ({ } : Store)).2.2 = some p
      ∧ ∃ rec : ScanRecord,
          get_scan_result
            (complete_scan p "T2" 9
              (create_scan (some acmeRequest) 3 "T0" ({ } : Store)).2.1)
            p.id = some rec
          ∧ rec.status = "completed"
          ∧ rec.scanData = some (completedDoc (initialDoc acmeRequest "T0") "T2")
          ∧ (completedDoc (initialDoc acmeRequest "T0") "T2").completed = some true
          ∧ (completedDoc (initialDoc acmeRequest "T0") "T2").insights =
              some cannedInsights
          ∧ cannedInsights.length = 3
          ∧ (completedDoc (initialDoc acmeRequest "T0") "T2").completedAt = some "T2"
          ∧ (completedDoc (initialDoc acmeRequest "T0") "T2").timestamp =
              (initialDoc acmeRequest "T0").timestamp :=
  C3_completion acmeRequest 3 "T0" { } (by decide) (by decide)
    (by intro r hr; cases hr) "T2" 9

/-- C8: the completion step merges into the `scanData` snapshot captured at
creation time, so whatever `scanData` value is written to the row between
creation and completion, the row's `scanData` after the completion step is
the merge of the creation-time document — the intermediate write is
overwritten. -/
theorem C8_snapshot_merge (data : ScanRequest) (now : Nat) (ts : String)
    (s : Store) (hne : data.isEmptyObj = false)
    (hv : validate_scan_request data = []) (hwf : s.WF)
    (u : Option ScanDoc) (tmid t2 : Nat) (tc : String) :
    ∀ p : Pending, (create_scan (some data) now ts s).2.2 = some p →
      p.scanData = some (initialDoc data ts)
      ∧ ∃ rec : ScanRecord,
          get_scan_result
            (complete_scan p tc t2
              (update_scan_result (create_scan (some data) now ts s).2.1 p.id
                { scanData := some u } tmid).2) p.id = some rec
          ∧ rec.scanData = some (completedDoc (initialDoc data ts) tc)
          ∧ rec.status = "completed" := by
  rw [create_scan_success_eq data now ts s hne hv]
  intro p hp
  cases hp
  refine ⟨rfl, ?_⟩
  dsimp only
  rw [update_after_create hwf (initialRecord data now ts s.nextId) rfl]
  dsimp only [complete_scan]
  rw [update_after_create hwf _ rfl]
  dsimp only
  rw [get_after_append hwf _ rfl]
  exact ⟨_, rfl, rfl, rfl⟩

/-- Witness for C8: a concrete intermediate overwrite of `scanData` that the
completion step discards. -/
theorem C8_snapshot_merge_witness :
    (({ id := 0, scanData := some (initialDoc acmeRequest "T0") } : Pending).scanData =
      some (initialDoc acmeRequest "T0"))
    ∧ ∃ rec : ScanRecord,
        get_scan_result
          (complete_scan
            { id := 0, scanData := some (initialDoc acmeRequest "T0") } "T2" 9
            (update_scan_result
              (create_scan (some acmeRequest) 3 "T0" ({ } : Store)).2.1
              ({ id := 0, scanData := some (initialDoc acmeRequest "T0") } : Pending).id
              { scanData := some (some { timestamp := some "HACKED" }) } 5).2)
          ({ id := 0, scanData := some (initialDoc acmeRequest "T0") } : Pending).id
          = some rec
        ∧ rec.scanData = some (completedDoc (initialDoc acmeRequest "T0") "T2")
        ∧ rec.status = "completed" :=
  C8_snapshot_merge acmeRequest 3 "T0" { } (by decide) (by decide)
    (by intro r hr; cases hr) (some { timestamp := some "HACKED" }) 5 9 "T2"
    { id := 0, scanData := some (initialDoc acmeRequest "T0") } (by decide)

/-- C4: `update_scan_result` answers absent for an unknown id; for a stored
row it overwrites exactly the fields present in the partial update, leaves
every absent field (and `id`, `createdAt`) unchanged, refreshes `updatedAt`,
and returns the full updated row, which is what the store now holds. -/
theorem C4_partial_update (s : Store) (i : Nat) (u : UpdateFields) (now : Nat) :
    ((∀ r ∈ s.records, r.id ≠ i) → (update_scan_result s i u now).1 = none)
    ∧ (∀ r, s.records.find? (fun x => x.id == i) = some r →
        ∃ r', (update_scan_result s i u now).1 = some r'
          ∧ r' ∈ (update_scan_result s i u now).2.records
          ∧ r'.updatedAt = now
          ∧ r'.id = r.id
          ∧ r'.createdAt = r.createdAt
          ∧ (u.businessName = none → r'.businessName = r.businessName)
          ∧ (u.website = none → r'.website = r.website)
          ∧ (u.scanData = none → r'.scanData = r.scanData)
          ∧ (u.status = none → r'.status = r.status)
          ∧ (∀ v, u.businessName = some v → r'.businessName = v)
          ∧ (∀ v, u.website = some v → r'.website = v)
          ∧ (∀ v, u.scanData = some v → r'.scanData = v)
          ∧ (∀ v, u.status = some v → r'.status = v)) := by
  constructor
  · intro h
    unfold update_scan_result
    have hnone : s.records.find? (fun x => x.id == i) = none :=
      List.find?_eq_none.mpr (fun x hx hbeq => h x hx (by simpa using hbeq))
    rw [hnone]
  · intro r hr
    have hmem : r ∈ s.records := List.mem_of_find?_eq_some hr
    have hpred : (r.id == i) = true := (List.find?_eq_some.mp hr).1
    unfold update_scan_result
    rw [hr]
    refine ⟨_, rfl, ?_, rfl, rfl, rfl,
      (fun h => by rw [h]; rfl), (fun h => by rw [h]; rfl),
      (fun h => by rw [h]; rfl), (fun h => by rw [h]; rfl),
      (fun v h => by rw [h]; rfl), (fun v h => by rw [h]; rfl),
      (fun v h => by rw [h]; rfl), (fun v h => by rw [h]; rfl)⟩
    have hfr : (fun x => if x.id == i then
        { r with
          businessName := u.businessName.getD r.businessName,
          website := u.website.getD r.website,
          scanData := u.scanData.getD r.scanData,
          status := u.status.getD r.status,
          updatedAt := now } else x) r =
        { r with
          businessName := u.businessName.getD r.businessName,
          website := u.website.getD r.website,
          scanData := u.scanData.getD r.scanData,
          status := u.status.getD r.status,
          updatedAt := now } := by
      simp [hpred]
    exact hfr ▸ List.mem_map_of_mem _ hmem

/-- Witness for C4: a status-only update of a one-row store keeps
`businessName` and `website` and refreshes `updatedAt`. -/
theorem C4_partial_update_witness :
    ∃ r', (update_scan_result
        { records := [{ id := 0, businessName := "Acme Co",
                        website := some "https://acme.example",
                        status := "scanning", scanData := none,
                        createdAt := 1, updatedAt := 1 }], nextId := 1 }
        0 { status := some "completed" } 5).1 = some r'
      ∧ r' ∈ (update_scan_result
          { records := [{ id := 0, businessName := "Acme Co",
                          website := some "https://acme.example",
                          status := "scanning", scanData := none,
                          createdAt := 1, updatedAt := 1 }], nextId := 1 }
          0 { status := some "completed" } 5).2.records
      ∧ r'.updatedAt = 5
      ∧ r'.id = ({ id := 0, businessName := "Acme Co",
                   website := some "https://acme.example",
                   status := "scanning", scanData := none,
                   createdAt := 1, updatedAt := 1 } : ScanRecord).id
      ∧ r'.createdAt = ({ id := 0, businessName := "Acme Co",
                          website := some "https://acme.example",
                          status := "scanning", scanData := none,
                          createdAt := 1, updatedAt := 1 } : ScanRecord).createdAt
      ∧ (({ status := some "completed" } : UpdateFields).businessName = none →
          r'.businessName = ({ id := 0, businessName := "Acme Co",
                               website := some "https://acme.example",
                               status := "scanning", scanData := none,
                               createdAt := 1, updatedAt := 1 } : ScanRecord).businessName)
      ∧ (({ status := some "completed" } : UpdateFields).website = none →
          r'.website = ({ id := 0, businessName := "Acme Co",
                          website := some "https://acme.example",
                          status := "scanning", scanData := none,
                          createdAt := 1, updatedAt := 1 } : ScanRecord).website)
      ∧ (({ status := some "completed" } : UpdateFields).scanData = none →
          r'.scanData = ({ id := 0, businessName := "Acme Co",
                           website := some "https://acme.example",
                           status := "scanning", scanData := none,
                           createdAt := 1, updatedAt := 1 } : ScanRecord).scanData)
      ∧ (({ status := some "completed" } : UpdateFields).status = none →
          r'.status = ({ id := 0, businessName := "Acme Co",
                         website := some "https://acme.example",
                         status := "scanning", scanData := none,
                         createdAt := 1, updatedAt := 1 } : ScanRecord).status)
      ∧ (∀ v, ({ status := some "completed" } : UpdateFields).businessName = some v →
          r'.businessName = v)
      ∧ (∀ v, ({ status := some "completed" } : UpdateFields).website = some v →
          r'.website = v)
      ∧ (∀ v, ({ status := some "completed" } : UpdateFields).scanData = some v →
          r'.scanData = v)
      ∧ (∀ v, ({ status := some "completed" } : UpdateFields).status = some v →
          r'.status = v) :=
  (C4_partial_update
    { records := [{ id := 0, businessName := "Acme Co",
                    website := some "https://acme.example",
                    status := "scanning", scanData := none,
                    createdAt := 1, updatedAt := 1 }], nextId := 1 }
    0 { status := some "completed" } 5).2
    { id := 0, businessName := "Acme Co",
      website := some "https://acme.example",
      status := "scanning", scanData := none,
      createdAt := 1, updatedAt := 1 } (by decide)

/-- C5, counterexample: with two rows sharing a creation time, the sequence
returned by `get_all_scan_results` is not strictly descending in creation
time — strictness fails on ties, which the store permits. -/
theorem C5_counterexample :
    ¬ List.Pairwise (fun a b : ScanRecord => b.createdAt < a.createdAt)
        (get_all_scan_results
          { records := [
              { id := 0, businessName := "a", website := none,
                status := "pending", scanData := none,
                createdAt := 7, updatedAt := 7 },
              { id := 1, businessName := "b", website := none,
                status := "pending", scanData := none,
                createdAt := 7, updatedAt := 7 }],
            nextId := 2 }) := by
  decide

/-- C5, amended: `get_all_scan_results` (and hence `GET /api/results`)
returns exactly the stored rows, ordered by creation time non-increasing
(newest-created-first; rows sharing a creation time are returned adjacently),
and the empty sequence when no rows exist. -/
theorem C5_all_results_order (s : Store) :
    (get_all_scan_results s).Perm s.records
    ∧ List.Pairwise (fun a b : ScanRecord => b.createdAt ≤ a.createdAt)
        (get_all_scan_results s)
    ∧ (s.records = [] → get_all_scan_results s = [])
    ∧ api_get_all_results s =
        { status := 200, results := some (get_all_scan_results s) } := by
  refine ⟨List.perm_insertionSort _ _, ?_, ?_, rfl⟩
  · exact @List.sorted_insertionSort ScanRecord
      (fun a b => b.createdAt ≤ a.createdAt) (fun a b => Nat.decLe _ _)
      ⟨fun a b => Nat.le_total b.createdAt a.createdAt⟩
      ⟨fun a b c hab hbc => Nat.le_trans hbc hab⟩ s.records
  · intro h
    rw [get_all_scan_results, h]
    rfl

/-- Witness for C5 on the empty store. -/
theorem C5_all_results_order_witness :
    get_all_scan_results { } = [] :=
  (C5_all_results_order { }).2.2.1 rfl

/-- C10: whitespace handling of `create_scan` — the persisted `businessName`
is the request value stripped; a whitespace-only `website` passes validation
and is persisted as absent, while the analysis note is still the
website-supplied message, because that choice tests the raw, unstripped
member. -/
theorem C10_whitespace_normalization (data : ScanRequest) (now : Nat)
    (ts : String) (s : Store) (bn w : String)
    (hbn : data.businessName = some bn) (hbne : bn ≠ "")
    (hw : data.website = some w) (hwne : w ≠ "") (hws : pyStrip w = "") :
    validate_scan_request data = []
    ∧ ∃ rec : ScanRecord,
        (create_scan (some data) now ts s).2.1.records = s.records ++ [rec]
        ∧ rec.businessName = pyStrip bn
        ∧ rec.website = none
        ∧ rec.scanData = some (initialDoc data ts)
        ∧ (initialDoc data ts).websiteAnalysis =
            some "Website found and analyzed" := by
  have htruthy : pyTruthy data.businessName = true := by
    rw [hbn]
    simp [pyTruthy, hbne]
  have hv : validate_scan_request data = [] := by
    apply (validate_scan_request_nil_iff data).mpr
    refine ⟨htruthy, ?_⟩
    rw [hw]
    simp [hws]
  have hne : data.isEmptyObj = false := by
    unfold ScanRequest.isEmptyObj
    rw [hw]
    simp
  refine ⟨hv, ?_⟩
  rw [create_scan_success_eq data now ts s hne hv]
  refine ⟨initialRecord data now ts s.nextId, rfl, ?_, ?_, rfl, ?_⟩
  · unfold initialRecord
    rw [hbn]
    rfl
  · unfold initialRecord
    rw [hw]
    simp [hws]
  · unfold initialDoc
    rw [hw]
    simp [pyTruthy, hwne]

/-- Witness for C10: business name " Acme " with a whitespace-only website. -/
theorem C10_whitespace_normalization_witness :
    validate_scan_request { businessName := some " Acme ", website := some "   " }
      = []
    ∧ ∃ rec : ScanRecord,
        (create_scan (some { businessName := some " Acme ", website := some "   " })
          0 "T0" ({ } : Store)).2.1.records = ({ } : Store).records ++ [rec]
        ∧ rec.businessName = pyStrip " Acme "
        ∧ rec.website = none
        ∧ rec.scanData = some (initialDoc
            { businessName := some " Acme ", website := some "   " } "T0")
        ∧ (initialDoc { businessName := some " Acme ", website := some "   " }
            "T0").websiteAnalysis = some "Website found and analyzed" :=
  C10_whitespace_normalization
    { businessName := some " Acme ", website := some "   " } 0 "T0" { }
    " Acme " "   " (by decide) (by decide) (by decide) (by decide) (by decide)
